import Mathlib

/-!
Shallow embedding of the `mcp-server-training` server (`src/server.py`).

The server exposes nine FastMCP tools.  The claims under study concern the
five network-backed tools (`get_notion_notes`, `create_notion_note`,
`get_github_issues`, `create_github_issue`, `get_weather`) and the three
file tools (`save_file`, `read_file`, `list_files`).

Modelling conventions:
* JSON values are the inductive `Json`; numbers are rationals (the payloads
  under study only carry numeric literals through unchanged, no arithmetic).
* Python exceptions become the inductive `PyErr`; fallible code returns
  `Except PyErr`.
* The `httpx.AsyncClient` call of each tool is an oracle function from the
  request data the source builds (params / payload) to an `HttpResponse`;
  each tool also reports how many outbound calls it performed
  (`ToolCall.networkCalls`), which is 0 exactly when the tool raises before
  entering the `async with httpx.AsyncClient()` block.
* Python truthiness of the optional config strings (`if not token`) is
  `pyTruthy`: `None` and `""` are falsy.
* The filesystem is a finite association map from resolved absolute paths
  (lists of path components, `..`/`.` resolved, as the OS would) to entries
  (regular file with content, or directory).  The file tools are explicit
  state-passing functions on this map.
-/

/-- JSON values, as produced by `response.json()`. -/
inductive Json where
  | null : Json
  | bool (b : Bool) : Json
  | num (q : Rat) : Json
  | str (s : String) : Json
  | arr (elems : List Json) : Json
  | obj (fields : List (String × Json)) : Json

/-- Python exceptions raised by the code under study. -/
inductive PyErr where
  | valueError (msg : String) : PyErr
  | fileNotFoundError (msg : String) : PyErr
  | isADirectoryError : PyErr
  | notADirectoryError : PyErr
  | fileExistsError : PyErr
  | keyError (k : String) : PyErr
  | indexError : PyErr
  | typeError : PyErr
  | httpStatusError (code : Nat) : PyErr
deriving DecidableEq

/-- First binding of a key in a JSON object (Python dicts have unique keys;
an association list read from the front models them). -/
def lookupField : List (String × Json) → String → Option Json
  | [], _ => none
  | (k, v) :: rest, key => if k = key then some v else lookupField rest key

/-- Python `d[key]` on a JSON value: `KeyError` when the key is absent,
`TypeError` when the value is not an object. -/
def Json.item : Json → String → Except PyErr Json
  | .obj fields, key =>
      match lookupField fields key with
      | some v => .ok v
      | none => .error (.keyError key)
  | _, _ => .error .typeError

/-- Python `xs[i]` on a JSON value: `IndexError` when out of range,
`TypeError` when the value is not an array. -/
def Json.itemAt : Json → Nat → Except PyErr Json
  | .arr elems, i =>
      match elems.get? i with
      | some v => .ok v
      | none => .error .indexError
  | _, _ => .error .typeError

/-- Python `d.get(key, default)` on a JSON value (a dict method; calling it
on a non-object is a type fault). -/
def Json.getD : Json → String → Json → Except PyErr Json
  | .obj fields, key, dflt => .ok ((lookupField fields key).getD dflt)
  | _, _, _ => .error .typeError

/-- Iterating a JSON value as a Python list; iterating a non-list response
body is modelled as a type fault. -/
def Json.asList : Json → Except PyErr (List Json)
  | .arr elems => .ok elems
  | _ => .error .typeError

/-- `[f x for x in xs]` where `f` can raise: left-to-right, first raise
aborts the comprehension. -/
def mapExcept (f : α → Except ε β) : List α → Except ε (List β)
  | [] => .ok []
  | x :: xs => do
      let y ← f x
      let ys ← mapExcept f xs
      .ok (y :: ys)

/-- The `Config` object: four optional credential strings read from the
environment at startup (`os.getenv` yields `None` when unset). -/
structure Config where
  notion_api_token : Option String
  notion_database_id : Option String
  github_token : Option String
  openweather_api_key : Option String

/-- Python truthiness of an optional string: `None` and `""` are falsy, so
`if not self.config.x` fires on both. -/
def pyTruthy : Option String → Bool
  | none => false
  | some s => s ≠ ""

/-- An HTTP response as the tools observe it: status code and JSON body. -/
structure HttpResponse where
  status : Nat
  body : Json

/-- `response.raise_for_status()`: raises on any 4xx/5xx status. -/
def raiseForStatus (r : HttpResponse) : Except PyErr Unit :=
  if 400 ≤ r.status then .error (.httpStatusError r.status) else .ok ()

/-- Result of one tool invocation: the returned value or raised exception,
plus the number of outbound network calls performed. -/
structure ToolCall (α : Type) where
  result : Except PyErr α
  networkCalls : Nat

/-- The data of the Notion database query POST the source builds
(`Authorization` header value, database id in the URL, `page_size` body). -/
structure NotionQueryRequest where
  auth : String
  database_id : String
  page_size : Nat

/-- The data of the Notion page-creation POST (`parent.database_id`,
`Name` title text and `Content` rich text from the arguments). -/
structure NotionCreateRequest where
  auth : String
  database_id : String
  title : String
  content : String

/-- The data of the GitHub issue-listing GET (`state` and `per_page`
query params). -/
structure GithubListRequest where
  auth : String
  owner : String
  repo : String
  state : String
  per_page : Nat

/-- The data of the GitHub issue-creation POST (`title` and `body`). -/
structure GithubCreateRequest where
  auth : String
  owner : String
  repo : String
  title : String
  body : String

/-- The data of the OpenWeather GET (`q`, `appid`, `units` query params). -/
structure WeatherRequest where
  q : String
  appid : String
  units : String

/-- Extraction of one page title in `get_notion_notes`:
`page["properties"]["Name"]["title"][0]["text"]["content"]`. -/
def extractNoteTitle (page : Json) : Except PyErr Json := do
  let props ← page.item "properties"
  let nameProp ← props.item "Name"
  let title ← nameProp.item "title"
  let first ← title.itemAt 0
  let text ← first.item "text"
  text.item "content"

/-- Tool `get_notion_notes`: config check, one POST to the database query
endpoint, `raise_for_status`, `.json().get("results", [])`, then the title
comprehension. -/
def get_notion_notes (cfg : Config) (max_results : Nat)
    (net : NotionQueryRequest → HttpResponse) : ToolCall Json :=
  if !(pyTruthy cfg.notion_api_token) || !(pyTruthy cfg.notion_database_id) then
    ⟨.error (.valueError "Notion API token and database ID are required"), 0⟩
  else
    let response := net ⟨"Bearer " ++ cfg.notion_api_token.getD "",
                         cfg.notion_database_id.getD "", max_results⟩
    ⟨(do
        raiseForStatus response
        let results ← response.body.getD "results" (.arr [])
        let pages ← results.asList
        let titles ← mapExcept extractNoteTitle pages
        .ok (.arr titles)), 1⟩

/-- Tool `create_notion_note`: config check, one POST building the page
payload from title/content, `raise_for_status`, fixed confirmation. -/
def create_notion_note (cfg : Config) (title content : String)
    (net : NotionCreateRequest → HttpResponse) : ToolCall String :=
  if !(pyTruthy cfg.notion_api_token) || !(pyTruthy cfg.notion_database_id) then
    ⟨.error (.valueError "Notion API token and database ID are required"), 0⟩
  else
    let response := net ⟨"Bearer " ++ cfg.notion_api_token.getD "",
                         cfg.notion_database_id.getD "", title, content⟩
    ⟨(do
        raiseForStatus response
        .ok "Note created successfully!"), 1⟩

/-- Reshaping of one remote issue in `get_github_issues`:
`{"title": issue["title"], "number": issue["number"], "state": issue["state"]}`. -/
def extractIssue (issue : Json) : Except PyErr Json := do
  let t ← issue.item "title"
  let n ← issue.item "number"
  let s ← issue.item "state"
  .ok (.obj [("title", t), ("number", n), ("state", s)])

/-- Default of the `state` parameter in the source signature of
`get_github_issues` (`state: str = "open"`). -/
def get_github_issues_default_state : String := "open"

/-- Default of the `max_results` parameter in the source signature of
`get_github_issues` (`max_results: int = 10`). -/
def get_github_issues_default_max_results : Nat := 10

/-- Tool `get_github_issues`: config check, one GET with `state`/`per_page`
params, `raise_for_status`, then the issue-reshaping comprehension. -/
def get_github_issues (cfg : Config) (owner repo state : String)
    (max_results : Nat) (net : GithubListRequest → HttpResponse) : ToolCall Json :=
  if !(pyTruthy cfg.github_token) then
    ⟨.error (.valueError "GitHub token is required"), 0⟩
  else
    let response := net ⟨"token " ++ cfg.github_token.getD "", owner, repo,
                         state, max_results⟩
    ⟨(do
        raiseForStatus response
        let issues ← response.body.asList
        let out ← mapExcept extractIssue issues
        .ok (.arr out)), 1⟩

/-- Rendering of the remote-assigned issue number inside the f-string
`f"Issue created successfully! Issue #{response.json()['number']}"`; only
integral numeric payloads occur in practice. -/
def pyNumStr : Json → String
  | .num q => if q.den = 1 then toString q.num else toString q
  | .str s => s
  | _ => ""

/-- Tool `create_github_issue`: config check, one POST with title/body,
`raise_for_status`, confirmation embedding `response.json()["number"]`. -/
def create_github_issue (cfg : Config) (owner repo title body : String)
    (net : GithubCreateRequest → HttpResponse) : ToolCall String :=
  if !(pyTruthy cfg.github_token) then
    ⟨.error (.valueError "GitHub token is required"), 0⟩
  else
    let response := net ⟨"token " ++ cfg.github_token.getD "", owner, repo,
                         title, body⟩
    ⟨(do
        raiseForStatus response
        let n ← response.body.item "number"
        .ok ("Issue created successfully! Issue #" ++ pyNumStr n)), 1⟩

/-- Tool `get_weather`: config check, one GET for `"{city},{country_code}"`
with metric units, `raise_for_status`, then the dict literal
`{city, country, temperature, description, humidity, wind_speed}` whose key
accesses are evaluated left to right. -/
def get_weather (cfg : Config) (city country_code : String)
    (net : WeatherRequest → HttpResponse) : ToolCall Json :=
  if !(pyTruthy cfg.openweather_api_key) then
    ⟨.error (.valueError "OpenWeather API key is required"), 0⟩
  else
    let response := net ⟨city ++ "," ++ country_code,
                         cfg.openweather_api_key.getD "", "metric"⟩
    ⟨(do
        raiseForStatus response
        let data := response.body
        let name ← data.item "name"
        let sys ← data.item "sys"
        let country ← sys.item "country"
        let main ← data.item "main"
        let temp ← main.item "temp"
        let weather ← data.item "weather"
        let w0 ← weather.itemAt 0
        let desc ← w0.item "description"
        let humidity ← main.item "humidity"
        let wind ← data.item "wind"
        let speed ← wind.item "speed"
        .ok (.obj [("city", name), ("country", country), ("temperature", temp),
                   ("description", desc), ("humidity", humidity),
                   ("wind_speed", speed)])), 1⟩

/-- Default of the `country_code` parameter in the source signature of
`get_weather` (`country_code: str = "US"`). -/
def get_weather_default_country_code : String := "US"

/-- Whether a string starts with the character `c`. -/
def strHeadIs (s : String) (c : Char) : Bool :=
  match s.toList with
  | [] => false
  | c0 :: _ => c0 == c

/-- Whether a string ends with the character `c`. -/
def strLastIs (s : String) (c : Char) : Bool :=
  match s.toList.getLast? with
  | some c0 => c0 == c
  | none => false

/-- `os.path.join(a, b)` on POSIX for the two-argument calls the source
makes: an absolute second component discards the first; otherwise the parts
are joined with a single separator. -/
def pyJoin (a b : String) : String :=
  if strHeadIs b '/' then b
  else if a = "" then b
  else if strLastIs a '/' then a ++ b
  else a ++ "/" ++ b

/-- Python `s.lstrip(chars)`: remove the longest leading run of characters
that belong to the character SET `chars` (not the prefix string `chars`). -/
def pyLstrip (s chars : String) : String :=
  String.mk (s.toList.dropWhile (fun c => chars.toList.contains c))

/-- Split a character list into path components at `/`, dropping empty
components (as the OS does for repeated or trailing separators). -/
def splitSlashAux : List Char → List Char → List String
  | [], cur => if cur.isEmpty then [] else [String.mk cur.reverse]
  | c :: rest, cur =>
      if c = '/' then
        if cur.isEmpty then splitSlashAux rest []
        else String.mk cur.reverse :: splitSlashAux rest []
      else splitSlashAux rest (c :: cur)

/-- OS-level resolution of a path string to its list of components from the
root: components split at `/`, `.` dropped, `..` popping one component. -/
def resolvePath (s : String) : List String :=
  (splitSlashAux s.toList []).foldl
    (fun acc comp =>
      if comp = "." then acc
      else if comp = ".." then acc.dropLast
      else acc ++ [comp]) []

/-- A filesystem entry: a regular file with text content, or a directory. -/
inductive Entry where
  | file (content : String) : Entry
  | dir : Entry
deriving DecidableEq

/-- The filesystem: a finite association map from resolved absolute paths
(component lists) to entries; the root directory is implicit. -/
def FS : Type := List (List String × Entry)

/-- Lookup of a path in the filesystem map (first binding wins). -/
def FS.find : FS → List String → Option Entry
  | [], _ => none
  | (k, e) :: rest, p => if k = p then some e else FS.find rest p

/-- Remove every binding of a path. -/
def FS.eraseKey : FS → List String → FS
  | [], _ => []
  | (k, e) :: rest, p =>
      if k = p then FS.eraseKey rest p else (k, e) :: FS.eraseKey rest p

/-- Bind a path to an entry, replacing any previous binding. -/
def FS.insert (fs : FS) (p : List String) (e : Entry) : FS :=
  (p, e) :: fs.eraseKey p

/-- Number of bindings of a path in the map. -/
def FS.countKey : FS → List String → Nat
  | [], _ => 0
  | (k, _) :: rest, p => (if k = p then 1 else 0) + FS.countKey rest p

/-- Whether an optional entry is a directory. -/
def isDirEntry : Option Entry → Bool
  | some .dir => true
  | _ => false

/-- Whether an optional entry is a regular file. -/
def isFileEntry : Option Entry → Bool
  | some (.file _) => true
  | _ => false

/-- `os.path.exists` on a resolved path (the root always exists). -/
def pathExists (fs : FS) (p : List String) : Bool :=
  p.isEmpty || (fs.find p).isSome

/-- Whether a resolved path is an existing directory (the root is one). -/
def existsDirB (fs : FS) (p : List String) : Bool :=
  p.isEmpty || isDirEntry (fs.find p)

/-- `os.path.isfile` on a resolved path. -/
def isFileB (fs : FS) (p : List String) : Bool :=
  isFileEntry (fs.find p)

/-- The nonempty prefixes of a component path, shortest first. -/
def pathPrefixes (p : List String) : List (List String) :=
  (List.range p.length).map (fun i => p.take (i + 1))

/-- Ensure a single directory exists (`exist_ok=True`): an existing
directory is fine, an existing regular file raises. -/
def mkdirOne (fs : FS) (q : List String) : Except PyErr FS :=
  match fs.find q with
  | some .dir => .ok fs
  | some (.file _) => .error .fileExistsError
  | none => .ok (fs.insert q .dir)

/-- Run `mkdirOne` over a list of paths, aborting on the first fault. -/
def makedirsList (fs : FS) : List (List String) → Except PyErr FS
  | [] => .ok fs
  | q :: rest =>
      match mkdirOne fs q with
      | .error e => .error e
      | .ok fs1 => makedirsList fs1 rest

/-- `os.makedirs(p, exist_ok=True)`: create every missing ancestor of `p`
and `p` itself; a regular file in the way raises. -/
def makedirs (fs : FS) (p : List String) : Except PyErr FS :=
  makedirsList fs (pathPrefixes p)

/-- The path `save_file`/`read_file` resolve for a filename:
`os.path.join(os.path.join(cwd, "data"), filename)`. -/
def dataFilePath (cwd filename : String) : String :=
  pyJoin (pyJoin cwd "data") filename

/-- Tool `save_file`: `makedirs` on the `data` directory, then
`open(filepath, "w")` and write.  Opening for write fails on an existing
directory or a missing parent directory; otherwise it creates or truncates
the file.  The filesystem after the `makedirs` step is kept even when the
write itself fails. -/
def save_file (cwd filename content : String) (fs : FS) :
    Except PyErr String × FS :=
  let safe_dir := pyJoin cwd "data"
  match makedirs fs (resolvePath safe_dir) with
  | .error e => (.error e, fs)
  | .ok fsm =>
      let filepath := pyJoin safe_dir filename
      let p := resolvePath filepath
      if existsDirB fsm p then (.error .isADirectoryError, fsm)
      else if !(existsDirB fsm p.dropLast) then
        (.error (.fileNotFoundError ("No such file or directory: " ++ filepath)), fsm)
      else (.ok ("Content saved to " ++ filepath), fsm.insert p (.file content))

/-- Tool `read_file`: explicit `os.path.exists` check raising
`FileNotFoundError`, then `open(filepath, "r")` and read; opening a
directory for read raises. -/
def read_file (cwd filename : String) (fs : FS) : Except PyErr String × FS :=
  let filepath := dataFilePath cwd filename
  let p := resolvePath filepath
  if !(pathExists fs p) then
    (.error (.fileNotFoundError ("File " ++ filename ++ " not found")), fs)
  else
    match fs.find p with
    | some (.file c) => (.ok c, fs)
    | _ => (.error .isADirectoryError, fs)

/-- The target path `list_files` computes:
`os.path.join(safe_dir, directory.lstrip("./"))`. -/
def list_files_target (cwd directory : String) : String :=
  pyJoin (pyJoin cwd "data") (pyLstrip directory "./")

/-- The name a filesystem key contributes to `os.listdir(p)`: its last
component, when it is a direct child of `p`. -/
def childName (p k : List String) : Option String :=
  if k.take p.length = p ∧ k.length = p.length + 1 then k.getLast? else none

/-- `os.listdir` on a resolved path: the names bound directly below it. -/
def listdir (fs : FS) (p : List String) : List String :=
  fs.filterMap (fun kv => childName p kv.1)

/-- Tool `list_files`: `os.path.exists` check raising `FileNotFoundError`,
then `os.listdir` (raising on a non-directory) filtered by
`os.path.isfile`. -/
def list_files (cwd directory : String) (fs : FS) :
    Except PyErr (List String) × FS :=
  let target_dir := list_files_target cwd directory
  let p := resolvePath target_dir
  if !(pathExists fs p) then
    (.error (.fileNotFoundError ("Directory " ++ directory ++ " not found")), fs)
  else if !(existsDirB fs p) then (.error .notADirectoryError, fs)
  else (.ok ((listdir fs p).filter (fun n => isFileB fs (p ++ [n]))), fs)

/-- C1: for every tool that requires a credential, if the required
configuration value is absent the call fails with the configuration
`ValueError` of the source and performs zero outbound network calls:
`get_notion_notes`/`create_notion_note` when the Notion token or database
id is absent, `get_github_issues`/`create_github_issue` when the GitHub
token is absent, and `get_weather` when the weather key is absent. -/
theorem missing_config_fails_before_network
    (cfg : Config) (max_results per_page : Nat)
    (title content owner repo state ititle ibody city country_code : String)
    (netNQ : NotionQueryRequest → HttpResponse)
    (netNC : NotionCreateRequest → HttpResponse)
    (netGL : GithubListRequest → HttpResponse)
    (netGC : GithubCreateRequest → HttpResponse)
    (netW : WeatherRequest → HttpResponse) :
    ((cfg.notion_api_token = none ∨ cfg.notion_database_id = none) →
      get_notion_notes cfg max_results netNQ =
        ⟨.error (.valueError "Notion API token and database ID are required"), 0⟩ ∧
      create_notion_note cfg title content netNC =
        ⟨.error (.valueError "Notion API token and database ID are required"), 0⟩) ∧
    (cfg.github_token = none →
      get_github_issues cfg owner repo state per_page netGL =
        ⟨.error (.valueError "GitHub token is required"), 0⟩ ∧
      create_github_issue cfg owner repo ititle ibody netGC =
        ⟨.error (.valueError "GitHub token is required"), 0⟩) ∧
    (cfg.openweather_api_key = none →
      get_weather cfg city country_code netW =
        ⟨.error (.valueError "OpenWeather API key is required"), 0⟩) := by
  refine ⟨fun h => ?_, fun h => ?_, fun h => ?_⟩
  · rcases h with h | h <;>
      simp [get_notion_notes, create_notion_note, h, pyTruthy]
  · simp [get_github_issues, create_github_issue, h, pyTruthy]
  · simp [get_weather, h, pyTruthy]

/-- Witness for `missing_config_fails_before_network` at the fully absent
configuration. -/
theorem missing_config_fails_before_network_witness :
    get_notion_notes ⟨none, none, none, none⟩ 10 (fun _ => ⟨200, .null⟩) =
      ⟨.error (.valueError "Notion API token and database ID are required"), 0⟩ ∧
    create_notion_note ⟨none, none, none, none⟩ "t" "c" (fun _ => ⟨200, .null⟩) =
      ⟨.error (.valueError "Notion API token and database ID are required"), 0⟩ ∧
    get_github_issues ⟨none, none, none, none⟩ "o" "r" "open" 10 (fun _ => ⟨200, .null⟩) =
      ⟨.error (.valueError "GitHub token is required"), 0⟩ ∧
    create_github_issue ⟨none, none, none, none⟩ "o" "r" "t" "b" (fun _ => ⟨200, .null⟩) =
      ⟨.error (.valueError "GitHub token is required"), 0⟩ ∧
    get_weather ⟨none, none, none, none⟩ "Paris" "FR" (fun _ => ⟨200, .null⟩) =
      ⟨.error (.valueError "OpenWeather API key is required"), 0⟩ := by
  have h := missing_config_fails_before_network ⟨none, none, none, none⟩
    10 10 "t" "c" "o" "r" "open" "t" "b" "Paris" "FR"
    (fun _ => ⟨200, .null⟩) (fun _ => ⟨200, .null⟩) (fun _ => ⟨200, .null⟩)
    (fun _ => ⟨200, .null⟩) (fun _ => ⟨200, .null⟩)
  exact ⟨(h.1 (Or.inl rfl)).1, (h.1 (Or.inl rfl)).2,
         (h.2.1 rfl).1, (h.2.1 rfl).2, h.2.2 rfl⟩

/-- C2: for every remote success payload containing the keys `name`,
`sys.country`, `main.temp`, `main.humidity`, `weather[0].description` and
`wind.speed`, `get_weather` returns exactly the record
`{city, country, temperature, description, humidity, wind_speed}` built
from those values. -/
theorem get_weather_maps_payload
    (cfg : Config) (city country_code : String)
    (net : WeatherRequest → HttpResponse) (data nm sys country main temp
      weather w0 desc humidity wind speed : Json)
    (hkey : pyTruthy cfg.openweather_api_key = true)
    (hnet : net ⟨city ++ "," ++ country_code,
                 cfg.openweather_api_key.getD "", "metric"⟩ = ⟨200, data⟩)
    (h1 : data.item "name" = .ok nm)
    (h2 : data.item "sys" = .ok sys)
    (h3 : sys.item "country" = .ok country)
    (h4 : data.item "main" = .ok main)
    (h5 : main.item "temp" = .ok temp)
    (h6 : data.item "weather" = .ok weather)
    (h7 : weather.itemAt 0 = .ok w0)
    (h8 : w0.item "description" = .ok desc)
    (h9 : main.item "humidity" = .ok humidity)
    (h10 : data.item "wind" = .ok wind)
    (h11 : wind.item "speed" = .ok speed) :
    get_weather cfg city country_code net =
      ⟨.ok (.obj [("city", nm), ("country", country), ("temperature", temp),
                  ("description", desc), ("humidity", humidity),
                  ("wind_speed", speed)]), 1⟩ := by
  simp only [get_weather, hkey, Bool.not_true, Bool.false_or, Bool.or_self,
    Bool.false_eq_true, if_false, hnet]
  simp [raiseForStatus, h1, h2, h3, h4, h5, h6, h7, h8, h9, h10, h11,
    Bind.bind, Except.bind, Pure.pure, Except.pure]

/-- The concrete mocked payload of the spec for `get_weather`. -/
def weatherPayloadNY : Json :=
  .obj [("name", .str "New York"),
        ("sys", .obj [("country", .str "US")]),
        ("main", .obj [("temp", .num 20.5), ("humidity", .num 65)]),
        ("weather", .arr [.obj [("description", .str "clear sky")]]),
        ("wind", .obj [("speed", .num 5.2)])]

/-- Witness for `get_weather_maps_payload` at the spec's mocked payload. -/
theorem get_weather_maps_payload_witness :
    get_weather ⟨none, none, none, some "k"⟩ "New York" "US"
        (fun _ => ⟨200, weatherPayloadNY⟩) =
      ⟨.ok (.obj [("city", .str "New York"), ("country", .str "US"),
                  ("temperature", .num 20.5),
                  ("description", .str "clear sky"),
                  ("humidity", .num 65), ("wind_speed", .num 5.2)]), 1⟩ :=
  get_weather_maps_payload ⟨none, none, none, some "k"⟩ "New York" "US"
    (fun _ => ⟨200, weatherPayloadNY⟩) weatherPayloadNY
    (.str "New York") (.obj [("country", .str "US")]) (.str "US")
    (.obj [("temp", .num 20.5), ("humidity", .num 65)]) (.num 20.5)
    (.arr [.obj [("description", .str "clear sky")]])
    (.obj [("description", .str "clear sky")]) (.str "clear sky")
    (.num 65) (.obj [("speed", .num 5.2)]) (.num 5.2)
    rfl rfl rfl rfl rfl rfl rfl rfl rfl rfl rfl rfl rfl

/-- A successful comprehension preserves length. -/
theorem mapExcept_ok_length (f : α → Except ε β) :
    ∀ (l : List α) (out : List β), mapExcept f l = .ok out →
      out.length = l.length := by
  intro l
  induction l with
  | nil => intro out h; simp [mapExcept] at h; simp [← h]
  | cons x xs ih =>
      intro out h
      cases hfx : f x with
      | error e => simp [mapExcept, hfx, Bind.bind, Except.bind] at h
      | ok y =>
          cases hrest : mapExcept f xs with
          | error e => simp [mapExcept, hfx, hrest, Bind.bind, Except.bind] at h
          | ok ys =>
              simp [mapExcept, hfx, hrest, Bind.bind, Except.bind,
                Pure.pure, Except.pure] at h
              simp [← h, ih ys hrest]

/-- A successful comprehension maps the k-th input to the k-th output. -/
theorem mapExcept_ok_get (f : α → Except ε β) :
    ∀ (l : List α) (out : List β), mapExcept f l = .ok out →
      ∀ (k : Nat) (hk : k < l.length) (hk2 : k < out.length),
        f (l.get ⟨k, hk⟩) = .ok (out.get ⟨k, hk2⟩) := by
  intro l
  induction l with
  | nil => intro out h k hk; exact absurd hk (by simp)
  | cons x xs ih =>
      intro out h k hk hk2
      cases hfx : f x with
      | error e => simp [mapExcept, hfx, Bind.bind, Except.bind] at h
      | ok y =>
          cases hrest : mapExcept f xs with
          | error e => simp [mapExcept, hfx, hrest, Bind.bind, Except.bind] at h
          | ok ys =>
              simp [mapExcept, hfx, hrest, Bind.bind, Except.bind,
                Pure.pure, Except.pure] at h
              subst h
              cases k with
              | zero => simpa using hfx
              | succ k =>
                  exact ih ys hrest k (Nat.lt_of_succ_lt_succ hk)
                    (Nat.lt_of_succ_lt_succ hk2)

/-- A failing comprehension fails on some element of the input list. -/
theorem mapExcept_error_mem (f : α → Except ε β) :
    ∀ (l : List α) (e : ε), mapExcept f l = .error e →
      ∃ x ∈ l, f x = .error e := by
  intro l
  induction l with
  | nil => intro e h; simp [mapExcept] at h
  | cons x xs ih =>
      intro e h
      cases hfx : f x with
      | error e1 =>
          simp [mapExcept, hfx, Bind.bind, Except.bind] at h
          exact ⟨x, List.mem_cons_self x xs, by rw [hfx, h]⟩
      | ok y =>
          cases hrest : mapExcept f xs with
          | error e1 =>
              simp [mapExcept, hfx, hrest, Bind.bind, Except.bind] at h
              obtain ⟨z, hz, hfz⟩ := ih e1 hrest
              exact ⟨z, List.mem_cons_of_mem x hz, by rw [hfz, h]⟩
          | ok ys =>
              simp [mapExcept, hfx, hrest, Bind.bind, Except.bind,
                Pure.pure, Except.pure] at h

/-- C5: for every remote success payload that is a list of issue objects,
`get_github_issues` returns a list of the same length in the same order,
reshaping the k-th remote issue into exactly
`{"title": ..., "number": ..., "state": ...}`; the `state` parameter
defaults to `"open"` and the page-size parameter to `10` in the source
signature. -/
theorem get_github_issues_maps_list
    (cfg : Config) (owner repo state : String) (max_results : Nat)
    (net : GithubListRequest → HttpResponse) (issues out : List Json)
    (htok : pyTruthy cfg.github_token = true)
    (hnet : net ⟨"token " ++ cfg.github_token.getD "", owner, repo,
                 state, max_results⟩ = ⟨200, .arr issues⟩)
    (hmap : mapExcept extractIssue issues = .ok out) :
    get_github_issues cfg owner repo state max_results net =
      ⟨.ok (.arr out), 1⟩ ∧
    out.length = issues.length ∧
    (∀ (k : Nat) (hk : k < issues.length) (hk2 : k < out.length),
      extractIssue (issues.get ⟨k, hk⟩) = .ok (out.get ⟨k, hk2⟩)) ∧
    (∀ (j t n s : Json), j.item "title" = .ok t → j.item "number" = .ok n →
      j.item "state" = .ok s →
      extractIssue j = .ok (.obj [("title", t), ("number", n), ("state", s)])) ∧
    get_github_issues_default_state = "open" ∧
    get_github_issues_default_max_results = 10 := by
  refine ⟨?_, mapExcept_ok_length extractIssue issues out hmap,
          mapExcept_ok_get extractIssue issues out hmap,
          ?_, rfl, rfl⟩
  · simp only [get_github_issues, htok, Bool.not_true, Bool.false_eq_true,
      if_false, hnet]
    simp [raiseForStatus, Json.asList, hmap, Bind.bind, Except.bind,
      Pure.pure, Except.pure]
  · intro j t n s h1 h2 h3
    simp [extractIssue, h1, h2, h3, Bind.bind, Except.bind,
      Pure.pure, Except.pure]

/-- The spec's two mocked GitHub issues. -/
def githubIssuesMock : List Json :=
  [.obj [("title", .str "Test Issue 1"), ("number", .num 1),
         ("state", .str "open")],
   .obj [("title", .str "Test Issue 2"), ("number", .num 2),
         ("state", .str "closed")]]

/-- Witness for `get_github_issues_maps_list` at the spec's two mocked
issues: the result preserves order, length and field mapping. -/
theorem get_github_issues_maps_list_witness :
    get_github_issues ⟨none, none, some "tok", none⟩ "o" "r" "open" 10
        (fun _ => ⟨200, .arr githubIssuesMock⟩) =
      ⟨.ok (.arr githubIssuesMock), 1⟩ ∧
    githubIssuesMock.length = githubIssuesMock.length :=
  ⟨(get_github_issues_maps_list ⟨none, none, some "tok", none⟩ "o" "r" "open"
      10 (fun _ => ⟨200, .arr githubIssuesMock⟩) githubIssuesMock
      githubIssuesMock rfl rfl rfl).1,
   (get_github_issues_maps_list ⟨none, none, some "tok", none⟩ "o" "r" "open"
      10 (fun _ => ⟨200, .arr githubIssuesMock⟩) githubIssuesMock
      githubIssuesMock rfl rfl rfl).2.1⟩

/-- C9: when the notes-service query succeeds with a JSON object body that
lacks the `results` key, `get_notion_notes` returns the empty list (the
`.get("results", [])` default) rather than raising; when `results` is
present as a list, the call succeeds whenever every record decodes, and any
raised decoding fault comes from some individual record whose nested title
fields fail to decode. -/
theorem get_notion_notes_missing_results
    (cfg : Config) (max_results : Nat)
    (net : NotionQueryRequest → HttpResponse) (fields : List (String × Json))
    (htok : pyTruthy cfg.notion_api_token = true)
    (hdb : pyTruthy cfg.notion_database_id = true)
    (hnet : net ⟨"Bearer " ++ cfg.notion_api_token.getD "",
                 cfg.notion_database_id.getD "", max_results⟩ =
            ⟨200, .obj fields⟩) :
    (lookupField fields "results" = none →
      get_notion_notes cfg max_results net = ⟨.ok (.arr []), 1⟩) ∧
    (∀ (pages out : List Json),
      lookupField fields "results" = some (.arr pages) →
      mapExcept extractNoteTitle pages = .ok out →
      get_notion_notes cfg max_results net = ⟨.ok (.arr out), 1⟩) ∧
    (∀ (pages : List Json) (e : PyErr),
      lookupField fields "results" = some (.arr pages) →
      (get_notion_notes cfg max_results net).result = .error e →
      ∃ page ∈ pages, extractNoteTitle page = .error e) := by
  refine ⟨fun hmiss => ?_, fun pages out hres hmap => ?_,
          fun pages e hres herr => ?_⟩
  · simp only [get_notion_notes, htok, hdb, Bool.not_true, Bool.or_self,
      Bool.false_eq_true, if_false, hnet]
    simp [raiseForStatus, Json.getD, hmiss, Json.asList, mapExcept,
      Bind.bind, Except.bind, Pure.pure, Except.pure]
  · simp only [get_notion_notes, htok, hdb, Bool.not_true, Bool.or_self,
      Bool.false_eq_true, if_false, hnet]
    simp [raiseForStatus, Json.getD, hres, Json.asList, hmap,
      Bind.bind, Except.bind, Pure.pure, Except.pure]
  · simp only [get_notion_notes, htok, hdb, Bool.not_true, Bool.or_self,
      Bool.false_eq_true, if_false, hnet] at herr
    simp [raiseForStatus, Json.getD, hres, Json.asList,
      Bind.bind, Except.bind, Pure.pure, Except.pure] at herr
    cases hmap : mapExcept extractNoteTitle pages with
    | error e1 =>
        rw [hmap] at herr
        simp at herr
        exact herr ▸ mapExcept_error_mem extractNoteTitle pages e1 hmap
    | ok out => rw [hmap] at herr; simp at herr

/-- Witness for `get_notion_notes_missing_results`: a success body with no
`results` key yields the empty list after one network call. -/
theorem get_notion_notes_missing_results_witness :
    get_notion_notes ⟨some "tok", some "db", none, none⟩ 10
        (fun _ => ⟨200, .obj [("object", .str "list")]⟩) =
      ⟨.ok (.arr []), 1⟩ :=
  (get_notion_notes_missing_results ⟨some "tok", some "db", none, none⟩ 10
      (fun _ => ⟨200, .obj [("object", .str "list")]⟩)
      [("object", .str "list")] rfl rfl rfl).1 rfl

/-- C10: `save_file` applies no sanitization to its filename: for the
absolute filename `/etc/passwd` the resolved write path is `/etc/passwd`
itself (`os.path.join` discards the first part before an absolute second
part), which does not lie under the fixed `data` subdirectory, and the
write lands at that outside path. -/
theorem save_file_escapes_data_dir :
    dataFilePath "/home/user" "/etc/passwd" = "/etc/passwd" ∧
    "/home/user/data".toList.isPrefixOf
      (dataFilePath "/home/user" "/etc/passwd").toList = false ∧
    (save_file "/home/user" "/etc/passwd" "owned"
        ([(["etc"], Entry.dir)] : FS)).1 = Except.ok "Content saved to /etc/passwd" ∧
    FS.find (save_file "/home/user" "/etc/passwd" "owned"
        ([(["etc"], Entry.dir)] : FS)).2 ["etc", "passwd"] =
      some (.file "owned") ∧
    List.isPrefixOf (resolvePath (pyJoin "/home/user" "data"))
        (resolvePath (dataFilePath "/home/user" "/etc/passwd")) = false :=
  ⟨rfl, by decide, rfl, rfl, by decide⟩

/-- Modelled from the spec for comparison with the source in claim C4: a
target path obtained by removing a leading `"./"` PREFIX from the argument
(an argument without that prefix joined unchanged). -/
def list_files_target_claimed (cwd directory : String) : String :=
  pyJoin (pyJoin cwd "data")
    (if ['.', '/'].isPrefixOf directory.toList then
      String.mk (directory.toList.drop 2)
    else directory)

/-- C4 counterexample: `.lstrip("./")` removes every leading `.` and `/`
character, not just a `"./"` prefix: the argument `".hidden"` has no
`"./"` prefix, yet the source joins `"hidden"`, not `".hidden"`; the claim
as stated is false. -/
theorem list_files_prefix_strip_counterexample :
    list_files_target "/app" ".hidden" ≠ list_files_target_claimed "/app" ".hidden" ∧
    list_files_target "/app" ".hidden" = "/app/data/hidden" ∧
    list_files_target_claimed "/app" ".hidden" = "/app/data/.hidden" ∧
    list_files_target "/app" ".." = "/app/data/" ∧
    list_files_target_claimed "/app" ".." = "/app/data/.." :=
  ⟨by decide, rfl, rfl, rfl, rfl⟩

/-- Membership test over the two characters of `"./"`. -/
theorem contains_dotslash (c : Char) :
    "./".toList.contains c = (c == '.' || c == '/') := by
  show List.elem c ['.', '/'] = (c == '.' || c == '/')
  cases h1 : c == '.' <;> cases h2 : c == '/' <;>
    simp [List.elem, h1, h2]

/-- `dropWhile` only looks at the pointwise value of its predicate. -/
theorem dropWhile_ext (p q : α → Bool) (h : ∀ a, p a = q a) :
    ∀ l : List α, l.dropWhile p = l.dropWhile q := by
  intro l
  induction l with
  | nil => rfl
  | cons a l ih => rw [List.dropWhile_cons, List.dropWhile_cons, h a, ih]

/-- Modelled from the spec as amended for claim C4: the target is the
argument with ALL leading `.` and `/` characters removed, joined beneath
the data directory. -/
def list_files_target_amended (cwd directory : String) : String :=
  pyJoin (pyJoin cwd "data")
    (String.mk (directory.toList.dropWhile (fun c => c == '.' || c == '/')))

/-- C4 as amended: `list_files` resolves its target by removing every
leading `.` and `/` character from the argument and joining the remainder
beneath the fixed data subdirectory; an argument starting with neither
character is joined unchanged. -/
theorem list_files_target_strips_leading_chars (cwd directory : String) :
    list_files_target cwd directory = list_files_target_amended cwd directory ∧
    (∀ c0 rest, directory.toList = c0 :: rest → (c0 == '.') = false →
      (c0 == '/') = false →
      list_files_target cwd directory = pyJoin (pyJoin cwd "data") directory) := by
  constructor
  · unfold list_files_target list_files_target_amended pyLstrip
    rw [dropWhile_ext _ _ contains_dotslash directory.toList]
  · intro c0 rest hd h1 h2
    unfold list_files_target pyLstrip
    rw [dropWhile_ext _ _ contains_dotslash directory.toList, hd,
      List.dropWhile_cons]
    simp only [h1, h2, Bool.or_self, Bool.false_eq_true, if_false]
    cases directory with
    | mk data => simp at hd; rw [hd]

/-- Witness for `list_files_target_strips_leading_chars` at the argument
`"notes"`, which starts with neither stripped character. -/
theorem list_files_target_strips_leading_chars_witness :
    list_files_target "/app" "notes" = list_files_target_amended "/app" "notes" ∧
    list_files_target "/app" "notes" = pyJoin (pyJoin "/app" "data") "notes" :=
  ⟨(list_files_target_strips_leading_chars "/app" "notes").1,
   (list_files_target_strips_leading_chars "/app" "notes").2
     'n' ['o', 't', 'e', 's'] rfl rfl rfl⟩

/-- Inserting a binding makes it the one `find` returns. -/
theorem find_insert_self (fs : FS) (p : List String) (e : Entry) :
    FS.find (fs.insert p e) p = some e := by
  simp [FS.insert, FS.find]

/-- Erasing one key leaves lookups of other keys unchanged. -/
theorem find_eraseKey_ne (q p : List String) (h : q ≠ p) :
    ∀ fs : List (List String × Entry),
      FS.find (FS.eraseKey fs p) q = FS.find fs q := by
  intro fs
  induction fs with
  | nil => rfl
  | cons kv rest ih =>
      obtain ⟨k, e⟩ := kv
      by_cases hk : k = p
      · subst hk
        have h2 : ¬(k = q) := fun hc => h (hc ▸ rfl)
        simp [FS.eraseKey, FS.find, h2, ih]
      · by_cases hq2 : k = q
        · simp [FS.eraseKey, FS.find, hk, hq2, h]
        · simp [FS.eraseKey, FS.find, hk, hq2, ih]

/-- Inserting one key leaves lookups of other keys unchanged. -/
theorem find_insert_ne (fs : FS) (p q : List String) (e : Entry) (h : q ≠ p) :
    FS.find (fs.insert p e) q = FS.find fs q := by
  have h2 : ¬(p = q) := fun hc => h hc.symm
  simp [FS.insert, FS.find, h2, find_eraseKey_ne q p h fs]

/-- After erasing a key it has no bindings left. -/
theorem countKey_eraseKey_self (p : List String) :
    ∀ fs : List (List String × Entry),
      FS.countKey (FS.eraseKey fs p) p = 0 := by
  intro fs
  induction fs with
  | nil => rfl
  | cons kv rest ih =>
      obtain ⟨k, e⟩ := kv
      by_cases hk : k = p
      · simpa [FS.eraseKey, hk] using ih
      · simpa [FS.eraseKey, FS.countKey, hk] using ih

/-- After an insert the key has exactly one binding. -/
theorem countKey_insert_self (fs : FS) (p : List String) (e : Entry) :
    FS.countKey (fs.insert p e) p = 1 := by
  simpa [FS.insert, FS.countKey] using countKey_eraseKey_self p fs

/-- A successful lookup comes from a binding in the map. -/
theorem find_some_mem (p : List String) (e : Entry) :
    ∀ fs : List (List String × Entry),
      FS.find fs p = some e → (p, e) ∈ fs := by
  intro fs
  induction fs with
  | nil => intro h; simp [FS.find] at h
  | cons kv rest ih =>
      intro h
      obtain ⟨k, e1⟩ := kv
      by_cases hk : k = p
      · subst hk
        simp [FS.find] at h
        simp [h]
      · simp [FS.find, hk] at h
        exact List.mem_cons_of_mem _ (ih h)

/-- A successful `mkdirOne` leaves a directory at its path. -/
theorem mkdirOne_ok_isDir (fs fs1 : FS) (q : List String)
    (h : mkdirOne fs q = .ok fs1) : isDirEntry (FS.find fs1 q) = true := by
  unfold mkdirOne at h
  cases hf : FS.find fs q with
  | none =>
      rw [hf] at h
      simp at h
      rw [← h, find_insert_self]
      rfl
  | some e =>
      cases e with
      | dir =>
          rw [hf] at h
          simp at h
          rw [← h, hf]
          rfl
      | file c => rw [hf] at h; simp at h

/-- A successful `mkdirOne` preserves existing directories. -/
theorem mkdirOne_preserves_dir (fs fs1 : FS) (q1 q : List String)
    (h : mkdirOne fs q1 = .ok fs1)
    (hd : isDirEntry (FS.find fs q) = true) :
    isDirEntry (FS.find fs1 q) = true := by
  unfold mkdirOne at h
  cases hf : FS.find fs q1 with
  | none =>
      rw [hf] at h
      simp at h
      by_cases hq : q = q1
      · rw [hq, hf] at hd; simp [isDirEntry] at hd
      · rw [← h, find_insert_ne fs q1 q .dir hq]
        exact hd
  | some e =>
      cases e with
      | dir => rw [hf] at h; simp at h; rw [← h]; exact hd
      | file c => rw [hf] at h; simp at h

/-- A successful `mkdirOne` changes no other path. -/
theorem mkdirOne_find_ne (fs fs1 : FS) (q1 q : List String)
    (h : mkdirOne fs q1 = .ok fs1) (hq : q ≠ q1) :
    FS.find fs1 q = FS.find fs q := by
  unfold mkdirOne at h
  cases hf : FS.find fs q1 with
  | none =>
      rw [hf] at h
      simp at h
      rw [← h, find_insert_ne fs q1 q .dir hq]
  | some e =>
      cases e with
      | dir => rw [hf] at h; simp at h; rw [← h]
      | file c => rw [hf] at h; simp at h

/-- A successful `makedirsList` preserves existing directories. -/
theorem makedirsList_preserves_dir (q : List String) :
    ∀ (qs : List (List String)) (fs fs2 : FS),
      makedirsList fs qs = .ok fs2 →
      isDirEntry (FS.find fs q) = true →
      isDirEntry (FS.find fs2 q) = true := by
  intro qs
  induction qs with
  | nil => intro fs fs2 h hd; simp [makedirsList] at h; rw [← h]; exact hd
  | cons q1 rest ih =>
      intro fs fs2 h hd
      unfold makedirsList at h
      cases hm : mkdirOne fs q1 with
      | error e => rw [hm] at h; simp at h
      | ok fsx =>
          rw [hm] at h
          exact ih fsx fs2 h (mkdirOne_preserves_dir fs fsx q1 q hm hd)

/-- After a successful `makedirsList`, every listed path is a directory. -/
theorem makedirsList_all_dirs :
    ∀ (qs : List (List String)) (fs fs2 : FS),
      makedirsList fs qs = .ok fs2 →
      ∀ q ∈ qs, isDirEntry (FS.find fs2 q) = true := by
  intro qs
  induction qs with
  | nil => intro fs fs2 h q hq; simp at hq
  | cons q1 rest ih =>
      intro fs fs2 h q hq
      unfold makedirsList at h
      cases hm : mkdirOne fs q1 with
      | error e => rw [hm] at h; simp at h
      | ok fsx =>
          rw [hm] at h
          rcases List.mem_cons.1 hq with hq | hq
          · subst hq
            exact makedirsList_preserves_dir q rest fsx fs2 h
              (mkdirOne_ok_isDir fs fsx q hm)
          · exact ih fsx fs2 h q hq

/-- A successful `makedirsList` changes no path outside its list. -/
theorem makedirsList_find_ne (q : List String) :
    ∀ (qs : List (List String)) (fs fs2 : FS),
      makedirsList fs qs = .ok fs2 →
      (∀ q1 ∈ qs, q ≠ q1) →
      FS.find fs2 q = FS.find fs q := by
  intro qs
  induction qs with
  | nil => intro fs fs2 h hne; simp [makedirsList] at h; rw [← h]
  | cons q1 rest ih =>
      intro fs fs2 h hne
      unfold makedirsList at h
      cases hm : mkdirOne fs q1 with
      | error e => rw [hm] at h; simp at h
      | ok fsx =>
          rw [hm] at h
          rw [ih fsx fs2 h (fun q2 hq2 => hne q2 (List.mem_cons_of_mem q1 hq2))]
          exact mkdirOne_find_ne fs fsx q1 q hm
            (hne q1 (List.mem_cons_self q1 rest))

/-- `makedirsList` is a no-op when every listed path is already a
directory. -/
theorem makedirsList_noop :
    ∀ (qs : List (List String)) (fs : FS),
      (∀ q ∈ qs, isDirEntry (FS.find fs q) = true) →
      makedirsList fs qs = .ok fs := by
  intro qs
  induction qs with
  | nil => intro fs h; rfl
  | cons q1 rest ih =>
      intro fs h
      have h1 := h q1 (List.mem_cons_self q1 rest)
      unfold makedirsList
      cases hf : FS.find fs q1 with
      | none => rw [hf] at h1; simp [isDirEntry] at h1
      | some e =>
          cases e with
          | file c => rw [hf] at h1; simp [isDirEntry] at h1
          | dir =>
              rw [show mkdirOne fs q1 = .ok fs by unfold mkdirOne; rw [hf]]
              exact ih fs (fun q2 hq2 => h q2 (List.mem_cons_of_mem q1 hq2))

/-- A nonempty path is one of its own prefixes. -/
theorem self_mem_pathPrefixes (p : List String) (h : p ≠ []) :
    p ∈ pathPrefixes p := by
  have hlen : 0 < p.length := List.length_pos.2 h
  refine List.mem_map.2 ⟨p.length - 1, List.mem_range.2 ?_, ?_⟩
  · exact Nat.sub_lt hlen Nat.one_pos
  · rw [Nat.sub_add_cancel hlen]
    exact List.take_length p

/-- Every listed prefix is at most as long as the path. -/
theorem mem_pathPrefixes_length_le (p q : List String)
    (h : q ∈ pathPrefixes p) : q.length ≤ p.length := by
  obtain ⟨i, _, hq⟩ := List.mem_map.1 h
  rw [← hq, List.length_take]
  exact min_le_right _ _

/-- Inserting at one path does not change whether another is a directory. -/
theorem existsDirB_insert_ne (fs : FS) (p q : List String) (e : Entry)
    (h : q ≠ p) : existsDirB (fs.insert p e) q = existsDirB fs q := by
  simp [existsDirB, find_insert_ne fs p q e h]

/-- A successful `makedirs` leaves a directory at its target. -/
theorem makedirs_ok_existsDir (fs fsm : FS) (p : List String)
    (hmk : makedirs fs p = .ok fsm) : existsDirB fsm p = true := by
  by_cases hp : p = []
  · simp [existsDirB, hp]
  · have hd := makedirsList_all_dirs (pathPrefixes p) fs fsm hmk p
      (self_mem_pathPrefixes p hp)
    simp [existsDirB, hd]

/-- C8: only `save_file` creates the fixed `data` subdirectory — after any
`save_file` call (even one whose write step fails) the resolved data
directory exists, provided its `makedirs` step succeeds — while
`read_file` and `list_files` always leave the filesystem unchanged. -/
theorem only_save_file_creates_data_dir
    (cwd filename content directory : String) (fs fsm : FS)
    (hmk : makedirs fs (resolvePath (pyJoin cwd "data")) = .ok fsm) :
    existsDirB (save_file cwd filename content fs).2
      (resolvePath (pyJoin cwd "data")) = true ∧
    (read_file cwd filename fs).2 = fs ∧
    (list_files cwd directory fs).2 = fs := by
  have hdir := makedirs_ok_existsDir fs fsm (resolvePath (pyJoin cwd "data")) hmk
  refine ⟨?_, ?_, ?_⟩
  · simp only [save_file]
    rw [hmk]
    split
    · rename_i e heq
      exact absurd heq (by simp)
    · rename_i fs1 heq
      injection heq with heq1
      subst heq1
      split
      · exact hdir
      · split
        · exact hdir
        · rename_i hnotdir hparent
          have hne : resolvePath (pyJoin cwd "data") ≠
              resolvePath (pyJoin (pyJoin cwd "data") filename) := by
            intro hc
            rw [hc] at hdir
            exact hnotdir hdir
          rw [existsDirB_insert_ne fsm _ _ _ hne]
          exact hdir
  · simp only [read_file]
    split
    · rfl
    · split <;> rfl
  · simp only [list_files]
    split
    · rfl
    · split <;> rfl

/-- Witness for `only_save_file_creates_data_dir` from the empty
filesystem. -/
theorem only_save_file_creates_data_dir_witness :
    existsDirB (save_file "/app" "f.txt" "x" ([] : FS)).2
      (resolvePath (pyJoin "/app" "data")) = true ∧
    (read_file "/app" "f.txt" ([] : FS)).2 = ([] : FS) ∧
    (list_files "/app" "." ([] : FS)).2 = ([] : FS) :=
  only_save_file_creates_data_dir "/app" "f.txt" "x" "." ([] : FS)
    ([(["app", "data"], Entry.dir), (["app"], Entry.dir)] : FS) rfl

/-- A filename that resolves to a direct child of the data directory whose
path is not an existing directory is written successfully: the result is
the confirmation string and the file binding replaces any previous one. -/
theorem save_file_plain_ok (cwd fn content : String) (fs fsm : FS)
    (hmk : makedirs fs (resolvePath (pyJoin cwd "data")) = .ok fsm)
    (hres : resolvePath (pyJoin (pyJoin cwd "data") fn) =
            resolvePath (pyJoin cwd "data") ++ [fn])
    (hnotdir : isDirEntry (FS.find fsm
      (resolvePath (pyJoin cwd "data") ++ [fn])) = false) :
    save_file cwd fn content fs =
      (.ok ("Content saved to " ++ pyJoin (pyJoin cwd "data") fn),
       fsm.insert (resolvePath (pyJoin cwd "data") ++ [fn])
         (.file content)) := by
  have hdp := makedirs_ok_existsDir fs fsm (resolvePath (pyJoin cwd "data")) hmk
  have h1 : existsDirB fsm (resolvePath (pyJoin cwd "data") ++ [fn]) = false := by
    simp [existsDirB, hnotdir]
  have h2 : existsDirB fsm
      ((resolvePath (pyJoin cwd "data") ++ [fn]).dropLast) = true := by
    rw [List.dropLast_concat]
    exact hdp
  simp only [save_file]
  rw [hmk]
  simp only [hres, h1, h2, Bool.false_eq_true, if_false, Bool.not_true,
    Bool.not_false, if_true]

/-- C7 as amended: for a filename that resolves to a direct child of the
data directory and does not name an existing directory, two successive
`save_file` calls with that filename both succeed and leave exactly one
binding for that path, a regular file holding the content of the last
call — an overwrite, not an append. -/
theorem save_file_overwrites_single_file
    (cwd fn c1 c2 : String) (fs fsm : FS)
    (hmk : makedirs fs (resolvePath (pyJoin cwd "data")) = .ok fsm)
    (hres : resolvePath (pyJoin (pyJoin cwd "data") fn) =
            resolvePath (pyJoin cwd "data") ++ [fn])
    (hnotdir : isDirEntry (FS.find fsm
      (resolvePath (pyJoin cwd "data") ++ [fn])) = false) :
    (save_file cwd fn c1 fs).1 =
      .ok ("Content saved to " ++ pyJoin (pyJoin cwd "data") fn) ∧
    (save_file cwd fn c2 ((save_file cwd fn c1 fs).2)).1 =
      .ok ("Content saved to " ++ pyJoin (pyJoin cwd "data") fn) ∧
    FS.find (save_file cwd fn c2 ((save_file cwd fn c1 fs).2)).2
      (resolvePath (pyJoin cwd "data") ++ [fn]) = some (.file c2) ∧
    FS.countKey (save_file cwd fn c2 ((save_file cwd fn c1 fs).2)).2
      (resolvePath (pyJoin cwd "data") ++ [fn]) = 1 := by
  have hs1 := save_file_plain_ok cwd fn c1 fs fsm hmk hres hnotdir
  have hq_ne : ∀ q1 ∈ pathPrefixes (resolvePath (pyJoin cwd "data")),
      resolvePath (pyJoin cwd "data") ++ [fn] ≠ q1 := by
    intro q1 hq1 hc
    have hlen := mem_pathPrefixes_length_le _ q1 hq1
    rw [← hc] at hlen
    simp at hlen
  have hdirs : ∀ q ∈ pathPrefixes (resolvePath (pyJoin cwd "data")),
      isDirEntry (FS.find (fsm.insert
        (resolvePath (pyJoin cwd "data") ++ [fn]) (.file c1)) q) = true := by
    intro q hq
    rw [find_insert_ne fsm _ q (.file c1) (fun hc => hq_ne q hq hc.symm)]
    exact makedirsList_all_dirs _ fs fsm hmk q hq
  have hmk2 : makedirs (fsm.insert
      (resolvePath (pyJoin cwd "data") ++ [fn]) (.file c1))
      (resolvePath (pyJoin cwd "data")) =
      .ok (fsm.insert (resolvePath (pyJoin cwd "data") ++ [fn]) (.file c1)) :=
    makedirsList_noop _ _ hdirs
  have hnotdir2 : isDirEntry (FS.find (fsm.insert
      (resolvePath (pyJoin cwd "data") ++ [fn]) (.file c1))
      (resolvePath (pyJoin cwd "data") ++ [fn])) = false := by
    rw [find_insert_self]
    rfl
  have hs2 := save_file_plain_ok cwd fn c2
    (fsm.insert (resolvePath (pyJoin cwd "data") ++ [fn]) (.file c1))
    (fsm.insert (resolvePath (pyJoin cwd "data") ++ [fn]) (.file c1))
    hmk2 hres hnotdir2
  refine ⟨by rw [hs1], ?_, ?_, ?_⟩
  · rw [hs1]
    show (save_file cwd fn c2 (fsm.insert
      (resolvePath (pyJoin cwd "data") ++ [fn]) (.file c1))).1 = _
    rw [hs2]
  · rw [hs1]
    show FS.find (save_file cwd fn c2 (fsm.insert
      (resolvePath (pyJoin cwd "data") ++ [fn]) (.file c1))).2 _ = _
    rw [hs2]
    exact find_insert_self _ _ _
  · rw [hs1]
    show FS.countKey (save_file cwd fn c2 (fsm.insert
      (resolvePath (pyJoin cwd "data") ++ [fn]) (.file c1))).2 _ = _
    rw [hs2]
    exact countKey_insert_self _ _ _

/-- Witness for `save_file_overwrites_single_file`: saving `test.txt` twice
from the empty filesystem leaves one binding with the second content. -/
theorem save_file_overwrites_single_file_witness :
    (save_file "/app" "test.txt" "a" ([] : FS)).1 =
      .ok ("Content saved to " ++ pyJoin (pyJoin "/app" "data") "test.txt") ∧
    (save_file "/app" "test.txt" "Hello, World!"
        ((save_file "/app" "test.txt" "a" ([] : FS)).2)).1 =
      .ok ("Content saved to " ++ pyJoin (pyJoin "/app" "data") "test.txt") ∧
    FS.find (save_file "/app" "test.txt" "Hello, World!"
        ((save_file "/app" "test.txt" "a" ([] : FS)).2)).2
      (resolvePath (pyJoin "/app" "data") ++ ["test.txt"]) =
      some (.file "Hello, World!") ∧
    FS.countKey (save_file "/app" "test.txt" "Hello, World!"
        ((save_file "/app" "test.txt" "a" ([] : FS)).2)).2
      (resolvePath (pyJoin "/app" "data") ++ ["test.txt"]) = 1 :=
  save_file_overwrites_single_file "/app" "test.txt" "a" "Hello, World!"
    ([] : FS) ([(["app", "data"], Entry.dir), (["app"], Entry.dir)] : FS)
    rfl rfl rfl

/-- C7 counterexample: for the filename `"x/y"` (from the empty
filesystem) repeated `save_file` leaves no file at all — the write fails
with a missing-parent fault both times — so the claim quantified over
every filename is false. -/
theorem save_file_repeat_counterexample :
    (save_file "/app" "x/y" "hello"
        ((save_file "/app" "x/y" "hello" ([] : FS)).2)).1 =
      .error (.fileNotFoundError "No such file or directory: /app/data/x/y") ∧
    FS.countKey (save_file "/app" "x/y" "hello"
        ((save_file "/app" "x/y" "hello" ([] : FS)).2)).2
      (resolvePath (dataFilePath "/app" "x/y")) = 0 :=
  ⟨rfl, rfl⟩

/-- An existing directory is an existing path. -/
theorem pathExists_of_existsDirB (fs : FS) (p : List String)
    (h : existsDirB fs p = true) : pathExists fs p = true := by
  unfold existsDirB at h
  unfold pathExists
  cases hp : p.isEmpty with
  | true => simp [hp]
  | false =>
      rw [hp] at h
      simp at h ⊢
      cases hf : FS.find fs p with
      | none => rw [hf] at h; simp [isDirEntry] at h
      | some e => simp

/-- A direct child contributes its name to `listdir`. -/
theorem childName_concat (p : List String) (n : String) :
    childName p (p ++ [n]) = some n := by
  simp [childName, List.take_left, List.getLast?_concat]

/-- C3 as amended: for a filename that resolves to a direct child of the
data directory and does not name an existing directory, `save_file`
followed by `read_file` returns exactly the saved content, and the
filename appears in `list_files(".")`. -/
theorem save_read_list_roundtrip (cwd fn content : String) (fs fsm : FS)
    (hmk : makedirs fs (resolvePath (pyJoin cwd "data")) = .ok fsm)
    (hres : resolvePath (pyJoin (pyJoin cwd "data") fn) =
            resolvePath (pyJoin cwd "data") ++ [fn])
    (hnotdir : isDirEntry (FS.find fsm
      (resolvePath (pyJoin cwd "data") ++ [fn])) = false)
    (hdot : resolvePath (list_files_target cwd ".") =
            resolvePath (pyJoin cwd "data")) :
    (read_file cwd fn ((save_file cwd fn content fs).2)).1 = .ok content ∧
    ∃ l, (list_files cwd "." ((save_file cwd fn content fs).2)).1 = .ok l ∧
      fn ∈ l := by
  have hs := save_file_plain_ok cwd fn content fs fsm hmk hres hnotdir
  rw [hs]
  have hfind : FS.find (fsm.insert
      (resolvePath (pyJoin cwd "data") ++ [fn]) (.file content))
      (resolvePath (pyJoin cwd "data") ++ [fn]) = some (.file content) :=
    find_insert_self _ _ _
  have hne : resolvePath (pyJoin cwd "data") ≠
      resolvePath (pyJoin cwd "data") ++ [fn] := by
    intro hc
    have := congrArg List.length hc
    simp at this
  have hdp : existsDirB (fsm.insert
      (resolvePath (pyJoin cwd "data") ++ [fn]) (.file content))
      (resolvePath (pyJoin cwd "data")) = true := by
    rw [existsDirB_insert_ne fsm _ _ _ hne]
    exact makedirs_ok_existsDir fs fsm _ hmk
  constructor
  · simp only [read_file, dataFilePath, hres, hfind]
    simp [pathExists, hfind]
  · refine ⟨(listdir (fsm.insert
      (resolvePath (pyJoin cwd "data") ++ [fn]) (.file content))
        (resolvePath (pyJoin cwd "data"))).filter
      (fun n => isFileB (fsm.insert
        (resolvePath (pyJoin cwd "data") ++ [fn]) (.file content))
        (resolvePath (pyJoin cwd "data") ++ [n])), ?_, ?_⟩
    · simp only [list_files, hdot,
        pathExists_of_existsDirB _ _ hdp, hdp, Bool.not_true,
        Bool.false_eq_true, if_false]
    · refine List.mem_filter.2 ⟨?_, ?_⟩
      · show fn ∈ List.filterMap _ ((resolvePath (pyJoin cwd "data") ++ [fn],
          Entry.file content) :: FS.eraseKey fsm _)
        rw [List.filterMap_cons]
        rw [show childName (resolvePath (pyJoin cwd "data"))
          ((resolvePath (pyJoin cwd "data") ++ [fn], Entry.file content)).1 =
          some fn from childName_concat _ fn]
        exact List.mem_cons_self fn _
      · simp [isFileB, hfind, isFileEntry]

/-- Witness for `save_read_list_roundtrip` at the spec's example
`test.txt` / `"Hello, World!"` from the empty filesystem. -/
theorem save_read_list_roundtrip_witness :
    (read_file "/app" "test.txt"
        ((save_file "/app" "test.txt" "Hello, World!" ([] : FS)).2)).1 =
      .ok "Hello, World!" ∧
    (list_files "/app" "."
        ((save_file "/app" "test.txt" "Hello, World!" ([] : FS)).2)).1 =
      .ok ["test.txt"] :=
  ⟨(save_read_list_roundtrip "/app" "test.txt" "Hello, World!" ([] : FS)
      ([(["app", "data"], Entry.dir), (["app"], Entry.dir)] : FS)
      rfl rfl rfl rfl).1, rfl⟩

/-- C3 counterexample: for the filename `"a/b"` (from the empty
filesystem) `save_file` fails with a missing-parent fault, so the
following `read_file` raises a not-found error instead of returning the
content; the claim quantified over every filename is false. -/
theorem save_read_roundtrip_counterexample :
    (read_file "/app" "a/b"
        ((save_file "/app" "a/b" "Hello, World!" ([] : FS)).2)).1 =
      .error (.fileNotFoundError "File a/b not found") ∧
    ((read_file "/app" "a/b"
        ((save_file "/app" "a/b" "Hello, World!" ([] : FS)).2)).1).isOk =
      false :=
  ⟨rfl, rfl⟩

/-- C6 as amended: `read_file` raises its not-found error exactly when the
resolved path does not exist, and returns the full content when the
resolved path is a regular file; `list_files` raises its not-found error
exactly when the resolved target does not exist, and when the target is an
existing directory returns precisely the names of the regular files
directly inside it (subdirectories excluded, no recursion).  A path that
exists but with the other kind (a directory read as a file, a file listed
as a directory) raises a different error instead, which is the one
correction to the claim. -/
theorem read_list_not_found_iff (cwd fn d : String) (fs : FS) :
    ((read_file cwd fn fs).1 =
        .error (.fileNotFoundError ("File " ++ fn ++ " not found")) ↔
      pathExists fs (resolvePath (dataFilePath cwd fn)) = false) ∧
    (∀ c, FS.find fs (resolvePath (dataFilePath cwd fn)) =
        some (.file c) → (read_file cwd fn fs).1 = .ok c) ∧
    ((list_files cwd d fs).1 =
        .error (.fileNotFoundError ("Directory " ++ d ++ " not found")) ↔
      pathExists fs (resolvePath (list_files_target cwd d)) = false) ∧
    (existsDirB fs (resolvePath (list_files_target cwd d)) = true →
      ∃ l, (list_files cwd d fs).1 = .ok l ∧
        ∀ n, n ∈ l ↔ ∃ c, FS.find fs
          (resolvePath (list_files_target cwd d) ++ [n]) =
            some (.file c)) := by
  refine ⟨?_, ?_, ?_, ?_⟩
  · simp only [read_file]
    cases hpe : pathExists fs (resolvePath (dataFilePath cwd fn)) with
    | false => simp
    | true =>
        simp only [Bool.not_true, Bool.false_eq_true, if_false]
        cases hf : FS.find fs (resolvePath (dataFilePath cwd fn)) with
        | none => simp
        | some e => cases e <;> simp
  · intro c hc
    simp [read_file, pathExists, hc]
  · simp only [list_files]
    cases hpe : pathExists fs (resolvePath (list_files_target cwd d)) with
    | false => simp
    | true =>
        simp only [Bool.not_true, Bool.false_eq_true, if_false]
        cases hed : existsDirB fs (resolvePath (list_files_target cwd d)) with
        | false => simp
        | true => simp
  · intro hed
    have hpe := pathExists_of_existsDirB fs _ hed
    refine ⟨(listdir fs (resolvePath (list_files_target cwd d))).filter
      (fun n => isFileB fs
        (resolvePath (list_files_target cwd d) ++ [n])), ?_, ?_⟩
    · simp only [list_files, hpe, hed, Bool.not_true, Bool.false_eq_true,
        if_false]
    · intro n
      constructor
      · intro hn
        have hpred := (List.mem_filter.1 hn).2
        unfold isFileB at hpred
        cases hf : FS.find fs
            (resolvePath (list_files_target cwd d) ++ [n]) with
        | none => rw [hf] at hpred; simp [isFileEntry] at hpred
        | some e =>
            cases e with
            | dir => rw [hf] at hpred; simp [isFileEntry] at hpred
            | file c => exact ⟨c, rfl⟩
      · rintro ⟨c, hc⟩
        refine List.mem_filter.2 ⟨?_, by simp [isFileB, hc, isFileEntry]⟩
        exact List.mem_filterMap.2
          ⟨(resolvePath (list_files_target cwd d) ++ [n], .file c),
           find_some_mem _ _ fs hc, childName_concat _ n⟩

/-- Witness for `read_list_not_found_iff`: an existing file is read back,
and the not-found characterization holds at a missing name. -/
theorem read_list_not_found_iff_witness :
    (read_file "/app" "notes.txt"
        ([(["app", "data"], Entry.dir),
          (["app", "data", "notes.txt"], Entry.file "hi")] : FS)).1 =
      .ok "hi" ∧
    ((read_file "/app" "missing.txt"
        ([(["app", "data"], Entry.dir),
          (["app", "data", "notes.txt"], Entry.file "hi")] : FS)).1 =
        .error (.fileNotFoundError "File missing.txt not found") ↔
      pathExists ([(["app", "data"], Entry.dir),
          (["app", "data", "notes.txt"], Entry.file "hi")] : FS)
        (resolvePath (dataFilePath "/app" "missing.txt")) = false) :=
  ⟨(read_list_not_found_iff "/app" "notes.txt" "."
      ([(["app", "data"], Entry.dir),
        (["app", "data", "notes.txt"], Entry.file "hi")] : FS)).2.1 "hi" rfl,
   (read_list_not_found_iff "/app" "missing.txt" "."
      ([(["app", "data"], Entry.dir),
        (["app", "data", "notes.txt"], Entry.file "hi")] : FS)).1⟩

/-- C6 counterexample: when the resolved path exists but is a directory
(here `data/x`), `read_file` does not return any text content — it raises
an is-a-directory fault — although the path exists, so the claim's
"otherwise returns the full text content of the file" is false as stated. -/
theorem read_file_on_directory_counterexample :
    pathExists ([(["app", "data"], Entry.dir),
        (["app", "data", "x"], Entry.dir)] : FS)
      (resolvePath (dataFilePath "/app" "x")) = true ∧
    (read_file "/app" "x"
        ([(["app", "data"], Entry.dir),
          (["app", "data", "x"], Entry.dir)] : FS)).1 =
      .error .isADirectoryError ∧
    ((read_file "/app" "x"
        ([(["app", "data"], Entry.dir),
          (["app", "data", "x"], Entry.dir)] : FS)).1).isOk = false :=
  ⟨rfl, rfl, rfl⟩
